import Mathlib

/-!
Verification of the Zenith foreground-window overlay core.

The embedding follows the two source components:
- the display layer (`app/components/IntelligenceHUD.tsx`): HUD state,
  the `active-window-change` notification handler with its classification
  heuristic, the confidence jitter update, and the click-through controls;
- the host shell (the Electron main process): the 500 ms poll tick that
  queries the OS foreground window and forwards at most one notification.

Strings are modelled as `List Char`; JavaScript `String.prototype.includes`
and `toLowerCase` are embedded directly (ASCII lowering, which covers every
token the heuristic uses). Numbers touched by the confidence random walk are
modelled as rationals.
-/

namespace Zenith

/-- The fixed set of intent labels produced by the display layer. -/
inductive IntentLabel where
  | coding
  | browsingResearch
  | communication
  | drafting
  | calculation
  | generalTask
  | idle
deriving DecidableEq, Repr

/-- JavaScript `hay.includes(needle)` on character lists: true iff `needle`
occurs as a contiguous substring of `hay` (the empty needle always matches). -/
def strIncludes : List Char → List Char → Bool
  | [], needle => needle.isEmpty
  | c :: t, needle => List.isPrefixOf needle (c :: t) || strIncludes t needle

/-- JavaScript `s.toLowerCase()` restricted to ASCII, as used by the heuristic. -/
def toLower (s : List Char) : List Char := s.map Char.toLower

/-- The classification heuristic of `IntelligenceHUD.tsx` lines 29-41,
translated condition by condition: each branch lowercases the name for its
first token and tests the raw name for its second token. -/
def classify (appName : List Char) : IntentLabel :=
  if strIncludes (toLower appName) "code".toList
      || strIncludes appName "Terminal".toList then
    .coding
  else if strIncludes (toLower appName) "chrome".toList
      || strIncludes appName "browser".toList then
    .browsingResearch
  else if strIncludes (toLower appName) "slack".toList
      || strIncludes appName "whatsapp".toList then
    .communication
  else if strIncludes (toLower appName) "notepad".toList
      || strIncludes appName "text".toList then
    .drafting
  else if strIncludes (toLower appName) "calc".toList then
    .calculation
  else
    .generalTask

/-- Evaluates an ordered list of (condition, label) rules, first match wins,
defaulting to General Task. -/
def firstMatch : List (Bool × IntentLabel) → IntentLabel
  | [] => .generalTask
  | (b, l) :: rest => if b then l else firstMatch rest

/-- The precedence table exactly as claim C1 reads it: every rule is
case-insensitive, and only the literal tokens "Terminal" and "browser" are
additionally tested against the raw-case name; in particular rules 3 and 4
are case-insensitive for both of their tokens. -/
def classifyClaimC1 (appName : List Char) : IntentLabel :=
  firstMatch
    [ (strIncludes (toLower appName) "code".toList
        || strIncludes appName "Terminal".toList, .coding)
    , (strIncludes (toLower appName) "chrome".toList
        || strIncludes appName "browser".toList, .browsingResearch)
    , (strIncludes (toLower appName) "slack".toList
        || strIncludes (toLower appName) "whatsapp".toList, .communication)
    , (strIncludes (toLower appName) "notepad".toList
        || strIncludes (toLower appName) "text".toList, .drafting)
    , (strIncludes (toLower appName) "calc".toList, .calculation) ]

/-- The precedence table as the code actually implements it: the raw-case
name is additionally tested for the literal tokens "Terminal", "browser",
"whatsapp" and "text" (the second token of each of rules 1-4), while the
first token of every rule is tested case-insensitively. -/
def classifyTable (appName : List Char) : IntentLabel :=
  firstMatch
    [ (strIncludes (toLower appName) "code".toList
        || strIncludes appName "Terminal".toList, .coding)
    , (strIncludes (toLower appName) "chrome".toList
        || strIncludes appName "browser".toList, .browsingResearch)
    , (strIncludes (toLower appName) "slack".toList
        || strIncludes appName "whatsapp".toList, .communication)
    , (strIncludes (toLower appName) "notepad".toList
        || strIncludes appName "text".toList, .drafting)
    , (strIncludes (toLower appName) "calc".toList, .calculation) ]

/-- The confidence jitter update of `IntelligenceHUD.tsx` line 17:
`Math.min(100, Math.max(80, prev + (Math.random() - 0.5) * 10))`,
with `r` standing for the value returned by `Math.random()`. -/
def updateConfidence (prev r : ℚ) : ℚ :=
  min 100 (max 80 (prev + (r - 1/2) * 10))

/-- The three pieces of display-layer state. -/
structure HudState where
  appContext : List Char
  intent : IntentLabel
  confidence : ℚ

/-- The initial display-layer state from the `useState` initialisers. -/
def initState : HudState :=
  { appContext := "Detecting...".toList, intent := .idle, confidence := 0 }

/-- JavaScript `data.owner || "Unknown"`: both a missing owner and the falsy
empty string fall back to the literal "Unknown". -/
def resolveOwner : Option (List Char) → List Char
  | none => "Unknown".toList
  | some s => if s.isEmpty then "Unknown".toList else s

/-- The `active-window-change` handler: resolve the owner name, store it as
the app context and reclassify the intent; confidence is untouched. -/
def handleActiveWindowChange (owner : Option (List Char)) (st : HudState) :
    HudState :=
  let appName := resolveOwner owner
  { st with appContext := appName, intent := classify appName }

/-- A `set-ignore-mouse-events` control message to the host shell: sent only
when the messaging channel (`window.require`) is available, otherwise the
call is a no-op producing no message. -/
def sendSetIgnoreMouseEvents (channelAvailable : Bool) (ignore : Bool) :
    List Bool :=
  if channelAvailable then [ignore] else []

/-- Whether the `ipcRenderer.on` subscription gets registered: only when the
messaging channel is available. -/
def subscribeActiveWindow (channelAvailable : Bool) : Bool := channelAvailable

/-- Mounting the component: the initial state, plus the one unconditional
release-requested (`ignore = true`) control sent by the mount effect. -/
def hudMount (channelAvailable : Bool) : HudState × List Bool :=
  (initState, sendSetIgnoreMouseEvents channelAvailable true)

/-- The events the mounted display layer reacts to. -/
inductive HudEvent where
  | notify (owner : Option (List Char))
  | pointerEnter
  | pointerLeave
  | jitterTick (r : ℚ)

/-- One display-layer step: the new state together with the list of
`set-ignore-mouse-events` booleans sent to the host shell. A notification
only reaches the handler when the subscription was registered. -/
def hudStep (channelAvailable : Bool) (st : HudState) :
    HudEvent → HudState × List Bool
  | .notify owner =>
      (if subscribeActiveWindow channelAvailable then
        handleActiveWindowChange owner st
      else st, [])
  | .pointerEnter => (st, sendSetIgnoreMouseEvents channelAvailable false)
  | .pointerLeave => (st, sendSetIgnoreMouseEvents channelAvailable true)
  | .jitterTick r =>
      ({ st with confidence := updateConfidence st.confidence r }, [])

/-- The outcome of one awaited `activeWin()` call in the host shell:
the promise rejected, resolved with nothing, or resolved with a window. -/
inductive QueryOutcome where
  | failure
  | empty
  | success (title ownerName ownerPath : List Char)

/-- The payload of one `active-window-change` notification. -/
structure ActiveWindowNotification where
  title : List Char
  ownerName : List Char
  ownerPath : List Char
deriving DecidableEq, Repr

/-- One poll tick of the host shell (main process, the 500 ms interval):
nothing is sent unless the window is alive and the `active-win` module
loaded; a successful query with a result sends exactly one notification;
a rejected or empty query sends nothing (the error is caught and logged). -/
def pollTick (windowAlive moduleLoaded : Bool) (q : QueryOutcome) :
    List ActiveWindowNotification :=
  if windowAlive && moduleLoaded then
    match q with
    | .failure => []
    | .empty => []
    | .success t n p => [⟨t, n, p⟩]
  else []

/-- Delivery of a batch of notifications to the display layer, in order. -/
def deliverAll (st : HudState) (msgs : List ActiveWindowNotification) :
    HudState :=
  msgs.foldl (fun s m => handleActiveWindowChange (some m.ownerName) s) st

/-! ## Theorems -/

/-- C1 counterexample: the claim's reading of the precedence table (rules 3
and 4 case-insensitive for both tokens) disagrees with the code on the owner
name "WhatsApp": the code tests the raw-case string for the literal token
"whatsapp", so "WhatsApp" classifies as General Task, while the claim's
table classifies it as Communication. -/
theorem classify_claimC1_counterexample :
    classify ("WhatsApp".toList) = IntentLabel.generalTask ∧
    classifyClaimC1 ("WhatsApp".toList) = IntentLabel.communication := by
  constructor <;> rfl

/-- C1 (amended): classify follows the precedence table of §4.2 with rules
tried in order 1-6 and the first match winning, each rule testing the
lowercased name for its first token, except that the unmodified (raw-case)
string is tested for the literal second tokens "Terminal", "browser",
"whatsapp" and "text" of rules 1-4 (so rules 3 and 4 are case-insensitive
only for their first tokens). -/
theorem classify_follows_amended_table (s : List Char) :
    classify s = classifyTable s := rfl

/-- C1 witness: the amended-table agreement evaluated at the concrete owner
name "WhatsApp". -/
theorem classify_follows_amended_table_witness :
    classify ("WhatsApp".toList) = classifyTable ("WhatsApp".toList) :=
  classify_follows_amended_table ("WhatsApp".toList)

/-- C2: every confidence update lands in [80,100], whatever the prior value
and whatever the random sample: the update clamps rather than wrapping. -/
theorem confidence_update_in_range (prev r : ℚ) :
    80 ≤ updateConfidence prev r ∧ updateConfidence prev r ≤ 100 := by
  unfold updateConfidence
  exact ⟨le_min (by norm_num) (le_max_left _ _), min_le_left _ _⟩

/-- C3: classify is a total function (a Lean `def`), hence deterministic,
and it maps each of the spec's named inputs to the stated label. -/
theorem classify_named_inputs :
    classify ("Visual Studio Code".toList) = IntentLabel.coding ∧
    classify ("Google Chrome".toList) = IntentLabel.browsingResearch ∧
    classify ("Slack".toList) = IntentLabel.communication ∧
    classify ("Notepad".toList) = IntentLabel.drafting ∧
    classify ("Calculator".toList) = IntentLabel.calculation ∧
    classify ("Spotify".toList) = IntentLabel.generalTask :=
  ⟨rfl, rfl, rfl, rfl, rfl, rfl⟩

/-- C4: a notification with a missing owner name is handled without error
(the handler is a total function) and yields appContext "Unknown" and
intent General Task, whatever the prior state. -/
theorem missing_owner_fallback (st : HudState) :
    (handleActiveWindowChange none st).appContext = "Unknown".toList ∧
    (handleActiveWindowChange none st).intent = IntentLabel.generalTask :=
  ⟨rfl, rfl⟩

/-- C5: end-to-end display-layer behaviour with the channel available: the
initial state is appContext "Detecting..." and intent Idle; mount sends the
single unconditional release-requested (true) control; the snapshot with
owner "Code.exe" drives any state to appContext "Code.exe" and intent
Coding; pointer-enter sends a control with ignore=false and pointer-leave a
control with ignore=true. -/
theorem end_to_end_display :
    initState.appContext = "Detecting...".toList ∧
    initState.intent = IntentLabel.idle ∧
    hudMount true = (initState, [true]) ∧
    (∀ st, hudStep true st (.notify (some ("Code.exe".toList))) =
      ({ st with appContext := "Code.exe".toList,
                 intent := IntentLabel.coding }, [])) ∧
    (∀ st, (hudStep true st .pointerEnter).2 = [false]) ∧
    (∀ st, (hudStep true st .pointerLeave).2 = [true]) :=
  ⟨rfl, rfl, rfl, fun _ => rfl, fun _ => rfl, fun _ => rfl⟩

/-- C6: on a poll tick with the window alive and the query module loaded, a
successful query sends exactly one {title, ownerName, ownerPath}
notification, while a failed or empty query sends none; delivering the
(empty) output of a failed or empty tick leaves the display state exactly
as it was. -/
theorem poll_tick_behaviour :
    (∀ t n p, pollTick true true (.success t n p) = [⟨t, n, p⟩]) ∧
    pollTick true true .failure = [] ∧
    pollTick true true .empty = [] ∧
    (∀ st, deliverAll st (pollTick true true .failure) = st) ∧
    (∀ st, deliverAll st (pollTick true true .empty) = st) :=
  ⟨fun _ _ _ => rfl, rfl, rfl, fun _ => rfl, fun _ => rfl⟩

/-- C7: with the messaging channel unavailable every host-communication call
is a no-op that sends nothing and changes nothing — no control message is
ever produced, the notification subscription is not registered and an event
leaves the state untouched — yet the component still mounts with its initial
state rendered. -/
theorem channel_unavailable_noop :
    (∀ b, sendSetIgnoreMouseEvents false b = []) ∧
    subscribeActiveWindow false = false ∧
    hudMount false = (initState, []) ∧
    (∀ st owner, hudStep false st (.notify owner) = (st, [])) ∧
    (∀ st, hudStep false st .pointerEnter = (st, [])) ∧
    (∀ st, hudStep false st .pointerLeave = (st, [])) :=
  ⟨fun _ => rfl, rfl, rfl, fun _ _ => rfl, fun _ => rfl, fun _ => rfl⟩

/-- C8: delivering the same snapshot twice in a row yields the same
appContext and intent after each of the two deliveries: the handler's
resulting appContext and intent depend only on the snapshot. -/
theorem snapshot_idempotent (owner : Option (List Char)) (st : HudState) :
    (handleActiveWindowChange owner
        (handleActiveWindowChange owner st)).appContext
      = (handleActiveWindowChange owner st).appContext ∧
    (handleActiveWindowChange owner
        (handleActiveWindowChange owner st)).intent
      = (handleActiveWindowChange owner st).intent :=
  ⟨rfl, rfl⟩

/-- C9: the first jitter update after mount always yields exactly 80: the
initial confidence is 0, the sample r of `Math.random()` lies in [0,1), so
the delta (r - 1/2) * 10 lies in [-5,5), the sum stays below the lower
clamp bound 80 and the clamp maps it to 80. -/
theorem first_jitter_is_eighty (r : ℚ) (h0 : 0 ≤ r) (h1 : r < 1) :
    updateConfidence 0 r = 80 := by
  unfold updateConfidence
  have hx : (0 : ℚ) + (r - 1/2) * 10 ≤ 80 := by linarith
  rw [max_eq_left hx]
  norm_num

/-- C9 witness: the first jitter update evaluated at the concrete sample
r = 1/2. -/
theorem first_jitter_is_eighty_witness :
    (0 : ℚ) ≤ 1/2 ∧ (1/2 : ℚ) < 1 ∧ updateConfidence 0 (1/2) = 80 :=
  ⟨by norm_num, by norm_num,
    first_jitter_is_eighty (1/2) (by norm_num) (by norm_num)⟩

/-- C10: a notification whose owner name is the empty string is handled
exactly like a missing owner name — the falsy fallback fires — so the state
gets appContext "Unknown" and intent General Task. -/
theorem empty_owner_like_missing (st : HudState) :
    handleActiveWindowChange (some ("".toList)) st
      = handleActiveWindowChange none st ∧
    (handleActiveWindowChange (some ("".toList)) st).appContext
      = "Unknown".toList ∧
    (handleActiveWindowChange (some ("".toList)) st).intent
      = IntentLabel.generalTask :=
  ⟨rfl, rfl, rfl⟩

end Zenith
